import Mathlib

/-!
Verification of the launch subsystem of tui-launcher.

The launch subsystem lives in the TUILauncher class (terminal detection,
command building, spawning, outcome recording) together with
DatabaseService.addLaunchHistory.  We embed it shallowly: the outside world
(the results of the `which` probes, the behaviour of the spawned child
process, the wall clock read by Date.now, and whether the SQLite store
throws) is packaged into an explicit `Env` value, and `launch` becomes a
pure function from the environment, the database state, the TUI record and
the options to the produced LaunchResult, the new database state and the
list of argvs handed to the process-spawn primitive.

JavaScript falsiness matters in several places (`options.terminal ||`,
`code || undefined`, `exit_code || null`) and is modelled explicitly.
-/

namespace TuiLauncher

/-- A catalogued TUI record; only the fields read by the launcher. -/
structure TUI where
  id : Nat
  command : String
  deriving Repr, DecidableEq

/-- LaunchOptions from launcher.ts: every field optional. -/
structure LaunchOptions where
  args : Option (List String) := none
  cwd : Option String := none
  terminal : Option String := none
  waitForExit : Option Bool := none
  deriving Repr, DecidableEq

/-- LaunchResult from launcher.ts: success flag plus optional exit code,
duration (ms) and error message. -/
structure LaunchResult where
  success : Bool
  exitCode : Option Int := none
  duration : Option Int := none
  error : Option String := none
  deriving Repr, DecidableEq

/-- Result of spawning `which <terminal>` for one candidate: the probe
process exited with a code, or the spawn attempt itself threw (the
launcher catches this and treats the candidate as not found). -/
inductive ProbeResult where
  | exited (code : Int)
  | raised
  deriving Repr, DecidableEq

/-- What the child process delivers after a successful spawn call: an exit
event carrying a possibly-null exit code, or an error event carrying a
message (for example when the emulator binary cannot be started). -/
inductive ChildEvent where
  | exited (code : Option Int)
  | errored (message : String)
  deriving Repr, DecidableEq

/-- Behaviour of the spawn primitive for this call: either it throws
synchronously (caught by the try/catch around launch; `none` models a
thrown value that is not an Error instance), or it returns a child
process handle that later delivers one event. -/
inductive SpawnBehavior where
  | raises (message : Option String)
  | proc (event : ChildEvent)
  deriving Repr, DecidableEq

/-- The ambient world of one launch call: results of the `which` probes,
behaviour of the spawn primitive, the successive Date.now readings
(`clock k` is the value of the k-th Date.now call, call 0 being the one
at entry of launch), the SQLite CURRENT_TIMESTAMP, and whether the store
throws when the outcome is recorded. -/
structure Env where
  probe : String → ProbeResult
  spawnBehavior : SpawnBehavior
  clock : Nat → Int
  dbNow : Int
  dbThrows : Bool

/-- One row of the launch_history table. -/
structure LaunchHistoryRow where
  tui_id : Nat
  launched_at : Int
  exit_code : Option Int
  duration_ms : Option Int
  error_message : Option String
  deriving Repr, DecidableEq

/-- The argument of DatabaseService.addLaunchHistory
(Omit of LaunchHistory without id and launched_at). -/
structure LaunchHistoryInput where
  tui_id : Nat
  exit_code : Option Int := none
  duration_ms : Option Int := none
  error_message : Option String := none
  deriving Repr, DecidableEq

/-- The slice of the SQLite database the launch subsystem touches: the
launch_history rows in insertion order, and per TUI id the launch_count
and last_launched_at columns of the tuis table. -/
structure DBState where
  history : List LaunchHistoryRow
  launchCount : Nat → Nat
  lastLaunchedAt : Nat → Option Int

/-- JavaScript coercion `v || null` on a nullable number: null and 0 are
falsy and become null, every other number is kept. -/
def jsOrNullInt : Option Int → Option Int
  | none => none
  | some n => if n = 0 then none else some n

/-- JavaScript coercion `v || null` on a nullable string: null and the
empty string are falsy and become null. -/
def jsOrNullStr : Option String → Option String
  | none => none
  | some s => if s = "" then none else some s

/-- DatabaseService.addLaunchHistory (client.ts): inserts one
launch_history row, coercing falsy fields to NULL via `||`, then
increments the target's launch_count and sets last_launched_at to
CURRENT_TIMESTAMP. -/
def addLaunchHistory (db : DBState) (now : Int) (h : LaunchHistoryInput) : DBState :=
  { history := db.history ++
      [{ tui_id := h.tui_id
         launched_at := now
         exit_code := jsOrNullInt h.exit_code
         duration_ms := jsOrNullInt h.duration_ms
         error_message := jsOrNullStr h.error_message }]
    launchCount := fun i => if i = h.tui_id then db.launchCount i + 1 else db.launchCount i
    lastLaunchedAt := fun i => if i = h.tui_id then some now else db.lastLaunchedAt i }

/-- The fixed ordered candidate list probed by TUILauncher.detectTerminal. -/
def terminals : List String :=
  ["alacritty", "kitty", "wezterm", "gnome-terminal", "konsole",
   "xterm", "urxvt", "terminator", "tilix"]

/-- One iteration of the detection loop: the candidate is accepted exactly
when `which` ran and exited with code 0; a raised probe is caught and the
loop continues. -/
def probeOk (env : Env) (t : String) : Bool :=
  match env.probe t with
  | ProbeResult.exited code => code = 0
  | ProbeResult.raised => false

/-- TUILauncher.detectTerminal: walk the candidate list in order and
return the first whose `which` probe exits 0; null when none does.  Total
by construction (the per-candidate try/catch never escapes). -/
def detectTerminal (env : Env) : Option String :=
  terminals.find? (probeOk env)

/-- The joined shell command of TUILauncher.buildLaunchCommand:
`args.length > 0 ? command + " " + args.join(" ") : command`. -/
def joinedCommand (command : String) (args : List String) : String :=
  if args.length > 0 then command ++ " " ++ String.intercalate " " args else command

/-- TUILauncher.buildLaunchCommand: the switch over the terminal identity,
wrapping the joined command in the emulator's calling convention, with the
xterm wrapper as the default case. -/
def buildLaunchCommand (terminal command : String) (args : List String) : List String :=
  let fullCommand := joinedCommand command args
  if terminal = "alacritty" then ["alacritty", "-e", "sh", "-c", fullCommand]
  else if terminal = "kitty" then ["kitty", "sh", "-c", fullCommand]
  else if terminal = "wezterm" then ["wezterm", "start", "--", "sh", "-c", fullCommand]
  else if terminal = "gnome-terminal" then ["gnome-terminal", "--", "sh", "-c", fullCommand]
  else if terminal = "konsole" then ["konsole", "-e", "sh", "-c", fullCommand]
  else if terminal = "xterm" then ["xterm", "-e", "sh", "-c", fullCommand]
  else if terminal = "urxvt" then ["urxvt", "-e", "sh", "-c", fullCommand]
  else if terminal = "terminator" then ["terminator", "-x", "sh", "-c", fullCommand]
  else if terminal = "tilix" then ["tilix", "-e", "sh", "-c", fullCommand]
  else ["xterm", "-e", "sh", "-c", fullCommand]

/-- TUILauncher.recordLaunch: hand the outcome to addLaunchHistory; a
throwing store is caught and only logged, leaving the database (and the
caller's outcome) untouched. -/
def recordLaunch (env : Env) (db : DBState) (tuiId : Nat) (result : LaunchResult) : DBState :=
  if env.dbThrows then db
  else addLaunchHistory db env.dbNow
    { tui_id := tuiId
      exit_code := result.exitCode
      duration_ms := result.duration
      error_message := result.error }

/-- The terminal used by launch:
`options.terminal || (await this.detectTerminal())`, with the JavaScript
falsiness of the empty string made explicit. -/
def resolveTerminal (env : Env) (options : LaunchOptions) : Option String :=
  match options.terminal with
  | some t => if t = "" then detectTerminal env else some t
  | none => detectTerminal env

/-- JavaScript truthiness of `options.waitForExit`: absent counts as
false. -/
def waitTruthy (o : Option Bool) : Bool := o.getD false

/-- Everything one launch call produces: the resolved LaunchResult, the
database state after any recording, and the argvs handed to the
process-spawn primitive (the `which` probes of detection excluded). -/
structure LaunchEffect where
  result : LaunchResult
  db : DBState
  spawned : List (List String)

/-- TUILauncher.launch, transcribed path by path.

Date.now call indices: call 0 is `startTime` at entry.  On the detached
path call 1 is the reading recorded to the database and call 2 the one in
the returned result; on the attached exit, attached error and catch paths
call 1 is the single reading at resolution.  The no-terminal path reads
the clock no further and returns an outcome without duration, without
recording. -/
def launch (env : Env) (db : DBState) (tui : TUI) (options : LaunchOptions) : LaunchEffect :=
  let startTime := env.clock 0
  match resolveTerminal env options with
  | none =>
      { result :=
          { success := false
            error := some "No terminal emulator found. Please install alacritty, kitty, or gnome-terminal." }
        db := db
        spawned := [] }
  | some terminal =>
      let launchCommand := buildLaunchCommand terminal tui.command (options.args.getD [])
      match env.spawnBehavior with
      | SpawnBehavior.raises msg =>
          { result :=
              { success := false
                duration := some (env.clock 1 - startTime)
                error := some (msg.getD "Unknown error") }
            db := db
            spawned := [launchCommand] }
      | SpawnBehavior.proc event =>
          if waitTruthy options.waitForExit then
            match event with
            | ChildEvent.exited code =>
                let result : LaunchResult :=
                  { success := code == some 0
                    exitCode := jsOrNullInt code
                    duration := some (env.clock 1 - startTime) }
                { result := result
                  db := recordLaunch env db tui.id result
                  spawned := [launchCommand] }
            | ChildEvent.errored message =>
                let result : LaunchResult :=
                  { success := false
                    duration := some (env.clock 1 - startTime)
                    error := some message }
                { result := result
                  db := recordLaunch env db tui.id result
                  spawned := [launchCommand] }
          else
            let recorded : LaunchResult :=
              { success := true
                duration := some (env.clock 1 - startTime) }
            { result :=
                { success := true
                  duration := some (env.clock 2 - startTime) }
              db := recordLaunch env db tui.id recorded
              spawned := [launchCommand] }

/-- The index of the Date.now call whose reading becomes the duration of
the returned outcome, on the paths where a terminal was resolved. -/
def resolutionClock (env : Env) (options : LaunchOptions) : Nat :=
  match env.spawnBehavior with
  | SpawnBehavior.raises _ => 1
  | SpawnBehavior.proc _ => if waitTruthy options.waitForExit then 1 else 2

/-- Replace only the store-failure flag of an environment. -/
def setDbThrows (env : Env) (b : Bool) : Env :=
  { env with dbThrows := b }

/-! Concrete fixtures used by counterexamples and witnesses. -/

/-- An empty database: no history, all counters zero. -/
def db0 : DBState :=
  { history := [], launchCount := fun _ => 0, lastLaunchedAt := fun _ => none }

/-- A catalogued target. -/
def tui0 : TUI := { id := 1, command := "htop" }

/-- A simple monotone wall clock. -/
def clock0 : Nat → Int := fun k => (k : Int)

/-- An environment where no terminal candidate resolves. -/
def envNoTerm : Env :=
  { probe := fun _ => ProbeResult.exited 1
    spawnBehavior := SpawnBehavior.proc (ChildEvent.exited (some 0))
    clock := clock0
    dbNow := 42
    dbThrows := false }

/-- An environment where only konsole resolves and the child exits 0. -/
def envKonsole : Env :=
  { envNoTerm with
      probe := fun t => if t = "konsole" then ProbeResult.exited 0 else ProbeResult.exited 1 }

/-- Like envKonsole but the spawn call throws synchronously. -/
def envRaised : Env :=
  { envKonsole with spawnBehavior := SpawnBehavior.raises (some "spawn failed") }

/-- Like envKonsole but the child delivers an error event. -/
def envErrored : Env :=
  { envKonsole with spawnBehavior := SpawnBehavior.proc (ChildEvent.errored "boom") }

/-- Like envKonsole but the child exits 1. -/
def envExit1 : Env :=
  { envKonsole with spawnBehavior := SpawnBehavior.proc (ChildEvent.exited (some 1)) }

/-- Attached-mode options. -/
def optsAttached : LaunchOptions := { waitForExit := some true }

/-! Helper lemma about List.find?. -/

/-- When find? returns a hit, the list splits into a prefix of misses, the
hit, and a remainder: this is the sense in which find? returns the first
match. -/
theorem find?_first_split {α : Type} (p : α → Bool) (l : List α) (a : α)
    (h : l.find? p = some a) :
    ∃ l₁ l₂, l = l₁ ++ a :: l₂ ∧ (∀ x ∈ l₁, p x = false) ∧ p a = true := by
  induction l with
  | nil => simp at h
  | cons x xs ih =>
    by_cases hx : p x
    · rw [List.find?_cons_of_pos _ hx] at h
      obtain rfl : x = a := by injection h
      exact ⟨[], xs, rfl, by simp, hx⟩
    · rw [List.find?_cons_of_neg _ hx] at h
      obtain ⟨l₁, l₂, hl, h1, h2⟩ := ih h
      refine ⟨x :: l₁, l₂, by rw [hl]; rfl, ?_, h2⟩
      intro y hy
      rcases List.mem_cons.mp hy with rfl | hy
      · exact Bool.not_eq_true _ ▸ (by simpa using hx)
      · exact h1 y hy

/-! Claim theorems. -/

/-- C7: buildLaunchCommand joins the command and its argument list into
one space-separated string — the command alone when args is empty, with no
trailing separator — before wrapping it in the emulator's convention; for
alacritty with command htop and no args the argv is
[alacritty, -e, sh, -c, htop], and for args [--arg1, --arg2] the joined
string is "htop --arg1 --arg2".  The last conjunct shows the wrapper
always ends in the joined string. -/
theorem C7_join_then_wrap :
    buildLaunchCommand "alacritty" "htop" [] = ["alacritty", "-e", "sh", "-c", "htop"] ∧
    joinedCommand "htop" ["--arg1", "--arg2"] = "htop --arg1 --arg2" ∧
    (∀ c : String, joinedCommand c [] = c) ∧
    (∀ t c : String, ∀ args : List String,
      ∃ pre : List String, buildLaunchCommand t c args = pre ++ [joinedCommand c args]) := by
  refine ⟨by decide, by decide, fun c => rfl, ?_⟩
  intro t c args
  simp only [buildLaunchCommand]
  repeat' split
  all_goals first
    | exact ⟨["alacritty", "-e", "sh", "-c"], rfl⟩
    | exact ⟨["kitty", "sh", "-c"], rfl⟩
    | exact ⟨["wezterm", "start", "--", "sh", "-c"], rfl⟩
    | exact ⟨["gnome-terminal", "--", "sh", "-c"], rfl⟩
    | exact ⟨["konsole", "-e", "sh", "-c"], rfl⟩
    | exact ⟨["xterm", "-e", "sh", "-c"], rfl⟩
    | exact ⟨["urxvt", "-e", "sh", "-c"], rfl⟩
    | exact ⟨["terminator", "-x", "sh", "-c"], rfl⟩
    | exact ⟨["tilix", "-e", "sh", "-c"], rfl⟩

/-- C7 witness: the general conjuncts of C7 instantiated at concrete
inputs. -/
theorem C7_join_then_wrap_witness :
    joinedCommand "ls" [] = "ls" ∧
    ∃ pre : List String,
      buildLaunchCommand "kitty" "htop" ["--tree"] = pre ++ [joinedCommand "htop" ["--tree"]] :=
  ⟨C7_join_then_wrap.2.2.1 "ls", C7_join_then_wrap.2.2.2 "kitty" "htop" ["--tree"]⟩

/-- C8: any terminal identifier outside the known emulator table still
yields the xterm-style fallback argv; command building never fails. -/
theorem C8_unknown_terminal_fallback (t c : String) (args : List String)
    (h : t ∉ terminals) :
    buildLaunchCommand t c args = ["xterm", "-e", "sh", "-c", joinedCommand c args] := by
  simp [terminals] at h
  obtain ⟨h1, h2, h3, h4, h5, h6, h7, h8, h9⟩ := h
  simp [buildLaunchCommand, h1, h2, h3, h4, h5, h6, h7, h8, h9]

/-- C8 witness: the fallback at a concrete unknown identifier. -/
theorem C8_unknown_terminal_fallback_witness :
    buildLaunchCommand "footerm" "htop" ["--tree"] =
      ["xterm", "-e", "sh", "-c", joinedCommand "htop" ["--tree"]] :=
  C8_unknown_terminal_fallback "footerm" "htop" ["--tree"] (by decide)

/-- C9: detectTerminal walks exactly the fixed ordered candidate list,
returns the first candidate whose `which` probe exits 0 (every earlier
candidate misses), and returns none exactly when no candidate resolves.
It is a total function, hence never throws. -/
theorem C9_detect_first_candidate (env : Env) :
    terminals = ["alacritty", "kitty", "wezterm", "gnome-terminal", "konsole",
      "xterm", "urxvt", "terminator", "tilix"] ∧
    (detectTerminal env = none ↔ ∀ t ∈ terminals, probeOk env t = false) ∧
    (∀ t, detectTerminal env = some t →
      ∃ l₁ l₂, terminals = l₁ ++ t :: l₂ ∧
        (∀ u ∈ l₁, probeOk env u = false) ∧ probeOk env t = true) := by
  refine ⟨rfl, ?_, ?_⟩
  · rw [detectTerminal, List.find?_eq_none]
    constructor
    · intro h t ht; simpa using h t ht
    · intro h t ht; simp [h t ht]
  · intro t h
    exact find?_first_split _ _ _ h

/-- C9 witness: in an environment where only konsole resolves, detection
returns konsole together with its first-hit decomposition. -/
theorem C9_detect_first_candidate_witness :
    detectTerminal envKonsole = some "konsole" ∧
    ∃ l₁ l₂, terminals = l₁ ++ "konsole" :: l₂ ∧
      (∀ u ∈ l₁, probeOk envKonsole u = false) ∧ probeOk envKonsole "konsole" = true :=
  ⟨rfl, (C9_detect_first_candidate envKonsole).2.2 "konsole" rfl⟩

/-! Projection lemmas for setDbThrows, used to relate launches that differ
only in whether the store throws. -/

theorem setDbThrows_probe (env : Env) (b : Bool) : (setDbThrows env b).probe = env.probe := rfl

theorem setDbThrows_spawnBehavior (env : Env) (b : Bool) :
    (setDbThrows env b).spawnBehavior = env.spawnBehavior := rfl

theorem setDbThrows_clock (env : Env) (b : Bool) : (setDbThrows env b).clock = env.clock := rfl

theorem resolveTerminal_setDbThrows (env : Env) (b : Bool) (options : LaunchOptions) :
    resolveTerminal (setDbThrows env b) options = resolveTerminal env options := rfl

/-- C1 counterexample: on the no-terminal path launch returns an outcome
but appends no launch_history row and leaves the launch counter
untouched, contradicting the claimed exactly-one append on every path. -/
theorem C1_counterexample :
    (launch envNoTerm db0 tui0 {}).result.success = false ∧
    (launch envNoTerm db0 tui0 {}).db.history.length = db0.history.length ∧
    (launch envNoTerm db0 tui0 {}).db.history.length ≠ db0.history.length + 1 ∧
    (launch envNoTerm db0 tui0 {}).db.launchCount tui0.id = db0.launchCount tui0.id :=
  ⟨rfl, rfl, by decide, rfl⟩

/-- C1 amended: launch (a total function) returns exactly one
LaunchOutcome on every path; when the spawn primitive returns a child
process (attached exit, attached error event, or detached return) and the
store does not throw, exactly one history row is appended together with
exactly one increment of the target's launch counter and one update of
its last-launched timestamp; on the no-terminal-found path and when the
spawn call throws synchronously, nothing is recorded. -/
theorem C1_launch_recording (env : Env) (db : DBState) (tui : TUI) (options : LaunchOptions)
    (hdb : env.dbThrows = false) :
    (resolveTerminal env options = none → (launch env db tui options).db = db) ∧
    (∀ msg, env.spawnBehavior = SpawnBehavior.raises msg →
      (launch env db tui options).db = db) ∧
    (∀ t ev, resolveTerminal env options = some t →
      env.spawnBehavior = SpawnBehavior.proc ev →
      (launch env db tui options).db.history.length = db.history.length + 1 ∧
      (launch env db tui options).db.launchCount tui.id = db.launchCount tui.id + 1 ∧
      (launch env db tui options).db.lastLaunchedAt tui.id = some env.dbNow) := by
  refine ⟨?_, ?_, ?_⟩
  · intro h; simp [launch, h]
  · intro msg hs
    cases hr : resolveTerminal env options with
    | none => simp [launch, hr]
    | some t => simp [launch, hr, hs]
  · intro t ev hr hs
    cases ev with
    | exited code =>
      by_cases hw : waitTruthy options.waitForExit
      · simp [launch, hr, hs, hw, recordLaunch, hdb, addLaunchHistory]
      · simp [launch, hr, hs, hw, recordLaunch, hdb, addLaunchHistory]
    | errored m =>
      by_cases hw : waitTruthy options.waitForExit
      · simp [launch, hr, hs, hw, recordLaunch, hdb, addLaunchHistory]
      · simp [launch, hr, hs, hw, recordLaunch, hdb, addLaunchHistory]

/-- C1 witness: an attached launch in an environment where konsole
resolves records exactly one history row and one counter increment. -/
theorem C1_launch_recording_witness :
    (launch envKonsole db0 tui0 optsAttached).db.history.length = db0.history.length + 1 ∧
    (launch envKonsole db0 tui0 optsAttached).db.launchCount tui0.id =
      db0.launchCount tui0.id + 1 ∧
    (launch envKonsole db0 tui0 optsAttached).db.lastLaunchedAt tui0.id =
      some envKonsole.dbNow :=
  (C1_launch_recording envKonsole db0 tui0 optsAttached rfl).2.2 "konsole"
    (ChildEvent.exited (some 0)) rfl rfl

/-- C2 counterexample: an attached child that exits 0 yields success but
its exit code is dropped to undefined by the `code || undefined`
coercion, so the outcome is not the claimed exitCode 0. -/
theorem C2_counterexample :
    (launch envKonsole db0 tui0 optsAttached).result.success = true ∧
    (launch envKonsole db0 tui0 optsAttached).result.exitCode = none ∧
    (launch envKonsole db0 tui0 optsAttached).result.exitCode ≠ some 0 :=
  ⟨rfl, rfl, by decide⟩

/-- C2 amended: for an attached launch whose child exits 0 the outcome is
success with exitCode absent (the source coerces exit code 0 to undefined
via `code || undefined`) and no error string; for a child exiting 1 the
outcome is failure with exitCode 1 and no error string. -/
theorem C2_attached_exit_codes (env : Env) (db : DBState) (tui : TUI)
    (options : LaunchOptions) (t : String)
    (hw : options.waitForExit = some true)
    (hr : resolveTerminal env options = some t) :
    (env.spawnBehavior = SpawnBehavior.proc (ChildEvent.exited (some 0)) →
      (launch env db tui options).result =
        { success := true, exitCode := none,
          duration := some (env.clock 1 - env.clock 0), error := none }) ∧
    (env.spawnBehavior = SpawnBehavior.proc (ChildEvent.exited (some 1)) →
      (launch env db tui options).result =
        { success := false, exitCode := some 1,
          duration := some (env.clock 1 - env.clock 0), error := none }) := by
  constructor <;> intro hs <;> simp [launch, hr, hs, waitTruthy, hw, jsOrNullInt]

/-- C2 witness: the two amended exit-code outcomes at concrete
environments. -/
theorem C2_attached_exit_codes_witness :
    (launch envKonsole db0 tui0 optsAttached).result =
      { success := true, exitCode := none, duration := some 1, error := none } ∧
    (launch envExit1 db0 tui0 optsAttached).result =
      { success := false, exitCode := some 1, duration := some 1, error := none } :=
  ⟨(C2_attached_exit_codes envKonsole db0 tui0 optsAttached "konsole" rfl rfl).1 rfl,
   (C2_attached_exit_codes envExit1 db0 tui0 optsAttached "konsole" rfl rfl).2 rfl⟩

/-- C3 counterexample: the outcome of the no-terminal path carries no
duration, contradicting the claimed duration on every path. -/
theorem C3_counterexample :
    (launch envNoTerm db0 tui0 {}).result.success = false ∧
    (launch envNoTerm db0 tui0 {}).result.duration = none :=
  ⟨rfl, rfl⟩

/-- C3 amended: on every path that resolves a terminal the outcome's
duration is the wall-clock difference between the Date.now reading at
resolution and the one taken at entry of launch; the no-terminal-found
outcome carries no duration. -/
theorem C3_duration_measured (env : Env) (db : DBState) (tui : TUI)
    (options : LaunchOptions) :
    (resolveTerminal env options = none →
      (launch env db tui options).result.duration = none) ∧
    (∀ t, resolveTerminal env options = some t →
      (launch env db tui options).result.duration =
        some (env.clock (resolutionClock env options) - env.clock 0)) := by
  constructor
  · intro h; simp [launch, h]
  · intro t hr
    cases hs : env.spawnBehavior with
    | raises msg => simp [launch, hr, hs, resolutionClock]
    | proc ev =>
      by_cases hw : waitTruthy options.waitForExit
      · cases ev <;> simp [launch, hr, hs, resolutionClock, hw]
      · simp [launch, hr, hs, resolutionClock, hw]

/-- C3 witness: the measured duration of a concrete attached launch. -/
theorem C3_duration_measured_witness :
    (launch envKonsole db0 tui0 optsAttached).result.duration =
      some (envKonsole.clock (resolutionClock envKonsole optsAttached) - envKonsole.clock 0) :=
  (C3_duration_measured envKonsole db0 tui0 optsAttached).2 "konsole" rfl

/-- C4: launch is a total function into LaunchEffect, so every call
returns exactly one LaunchOutcome and no exception escapes; the returned
outcome is identical whether or not the store throws while recording
(the failure is caught and only logged); and every failure mode — no
terminal found, a synchronous spawn throw, an error event from the
child — funnels into an outcome with success false (with the thrown or
emitted message in the error field). -/
theorem C4_outcome_never_thrown (env : Env) (db : DBState) (tui : TUI)
    (options : LaunchOptions) :
    ((launch env db tui options).result =
      (launch (setDbThrows env false) db tui options).result) ∧
    (resolveTerminal env options = none → (launch env db tui options).result.success = false) ∧
    (∀ msg, env.spawnBehavior = SpawnBehavior.raises msg →
      (launch env db tui options).result.success = false ∧
      ∃ s, (launch env db tui options).result.error = some s) ∧
    (∀ m t, resolveTerminal env options = some t →
      env.spawnBehavior = SpawnBehavior.proc (ChildEvent.errored m) →
      waitTruthy options.waitForExit = true →
      (launch env db tui options).result.success = false ∧
      (launch env db tui options).result.error = some m) := by
  refine ⟨?_, ?_, ?_, ?_⟩
  · cases hr : resolveTerminal env options with
    | none => simp [launch, hr, resolveTerminal_setDbThrows]
    | some t =>
      cases hs : env.spawnBehavior with
      | raises msg =>
        simp [launch, hr, hs, resolveTerminal_setDbThrows, setDbThrows_spawnBehavior,
          setDbThrows_clock]
      | proc ev =>
        by_cases hw : waitTruthy options.waitForExit
        · cases ev <;>
            simp [launch, hr, hs, hw, resolveTerminal_setDbThrows, setDbThrows_spawnBehavior,
              setDbThrows_clock]
        · simp [launch, hr, hs, hw, resolveTerminal_setDbThrows, setDbThrows_spawnBehavior,
            setDbThrows_clock]
  · intro h; simp [launch, h]
  · intro msg hs
    cases hr : resolveTerminal env options with
    | none => simp [launch, hr]
    | some t => simp [launch, hr, hs]
  · intro m t hr hs hw
    simp [launch, hr, hs, hw]

/-- C4 witness: a spawn that throws still yields a failure outcome with
an error string, and a launch whose store throws returns the same outcome
as one whose store works. -/
theorem C4_outcome_never_thrown_witness :
    ((launch envRaised db0 tui0 optsAttached).result.success = false ∧
      ∃ s, (launch envRaised db0 tui0 optsAttached).result.error = some s) ∧
    (launch (setDbThrows envKonsole true) db0 tui0 optsAttached).result =
      (launch (setDbThrows (setDbThrows envKonsole true) false) db0 tui0 optsAttached).result :=
  ⟨(C4_outcome_never_thrown envRaised db0 tui0 optsAttached).2.2.1 (some "spawn failed") rfl,
   (C4_outcome_never_thrown (setDbThrows envKonsole true) db0 tui0 optsAttached).1⟩

/-- C5: with no explicit terminal option and a detector that finds no
candidate, launch fails immediately with a non-empty error string, spawns
no subprocess, and leaves the database untouched. -/
theorem C5_no_terminal_immediate (env : Env) (db : DBState) (tui : TUI)
    (options : LaunchOptions)
    (h1 : options.terminal = none) (h2 : detectTerminal env = none) :
    (launch env db tui options).result.success = false ∧
    (∃ s, (launch env db tui options).result.error = some s ∧ s ≠ "") ∧
    (launch env db tui options).spawned = [] ∧
    (launch env db tui options).db = db := by
  have hr : resolveTerminal env options = none := by simp [resolveTerminal, h1, h2]
  exact ⟨by simp [launch, hr],
    ⟨"No terminal emulator found. Please install alacritty, kitty, or gnome-terminal.",
      by simp [launch, hr], by decide⟩,
    by simp [launch, hr], by simp [launch, hr]⟩

/-- C5 witness: the no-terminal outcome at a concrete environment. -/
theorem C5_no_terminal_immediate_witness :
    (launch envNoTerm db0 tui0 {}).result.success = false ∧
    (∃ s, (launch envNoTerm db0 tui0 {}).result.error = some s ∧ s ≠ "") ∧
    (launch envNoTerm db0 tui0 {}).spawned = [] ∧
    (launch envNoTerm db0 tui0 {}).db = db0 :=
  C5_no_terminal_immediate envNoTerm db0 tui0 {} rfl rfl

/-- C6: a detached launch (waitForExit absent or false) whose spawn call
returns a child resolves with success, no exit code, and the duration
from the entry Date.now to the reading taken right after spawn,
independently of which event the child would later deliver. -/
theorem C6_detached_immediate (env : Env) (db : DBState) (tui : TUI)
    (options : LaunchOptions) (t : String) (ev : ChildEvent)
    (hw : waitTruthy options.waitForExit = false)
    (hr : resolveTerminal env options = some t)
    (hs : env.spawnBehavior = SpawnBehavior.proc ev) :
    (launch env db tui options).result =
      { success := true, exitCode := none,
        duration := some (env.clock 2 - env.clock 0), error := none } := by
  simp [launch, hr, hs, hw]

/-- C6 witness: a concrete detached launch resolves with success, absent
exit code, and the time-to-spawn duration. -/
theorem C6_detached_immediate_witness :
    (launch envKonsole db0 tui0 {}).result =
      { success := true, exitCode := none, duration := some 2, error := none } :=
  C6_detached_immediate envKonsole db0 tui0 {} "konsole" (ChildEvent.exited (some 0))
    rfl rfl rfl

/-- C10: addLaunchHistory appends exactly one row in which falsy fields
are coerced to NULL: exit code 0, duration 0 and the empty error string
are persisted as absent, and an entry with exit code 0 is stored exactly
as one whose exit code was never known. -/
theorem C10_falsy_fields_null (db : DBState) (now : Int) (e : LaunchHistoryInput) :
    (∃ r, (addLaunchHistory db now e).history = db.history ++ [r] ∧
      (e.exit_code = some 0 → r.exit_code = none) ∧
      (e.duration_ms = some 0 → r.duration_ms = none) ∧
      (e.error_message = some "" → r.error_message = none)) ∧
    addLaunchHistory db now { e with exit_code := some 0 } =
      addLaunchHistory db now { e with exit_code := none } := by
  constructor
  · refine ⟨_, rfl, ?_, ?_, ?_⟩ <;> intro h <;> simp [jsOrNullInt, jsOrNullStr, h]
  · simp [addLaunchHistory, jsOrNullInt]

/-- C10 witness: a fully falsy entry is persisted with all three fields
absent, and the exit-0 and exit-unknown entries coincide. -/
theorem C10_falsy_fields_null_witness :
    (∃ r, (addLaunchHistory db0 42
        { tui_id := 1, exit_code := some 0, duration_ms := some 0,
          error_message := some "" }).history = db0.history ++ [r] ∧
      (some (0 : Int) = some 0 → r.exit_code = none) ∧
      (some (0 : Int) = some 0 → r.duration_ms = none) ∧
      (some "" = some "" → r.error_message = none)) ∧
    addLaunchHistory db0 42
        { tui_id := 1, exit_code := some 0, duration_ms := some 0,
          error_message := some "" } =
      addLaunchHistory db0 42
        { tui_id := 1, exit_code := none, duration_ms := some 0,
          error_message := some "" } :=
  C10_falsy_fields_null db0 42
    { tui_id := 1, exit_code := some 0, duration_ms := some 0, error_message := some "" }

end TuiLauncher
